import Mathlib

/-!
Shallow embedding of the MSW mock-handler layer of this repository:
the handler registry (`src/mocks/server.ts` together with the handlers it
serves), the per-test lifecycle hooks (`setupTestServer`), the browser
worker bootstrap (`enableMocking` in `src/mocks/browser.ts`, reproduced in
`src/mocks/README.md`), and the handlers defined inline in
`src/components/__tests__/UserList.test.tsx` and
`src/components/__stories__/UserList.stories.tsx`.

Machine data is modelled with `Nat`/`Int`/`String`; JSON payloads with an
explicit inductive `Json`; asynchronous resolution with an explicit
`Delay` value and a `resolvedWithin` predicate over elapsed milliseconds.
-/

namespace MswMock

/-- A user record as produced by the mocked `/api/users` endpoint
(`UserList.test.tsx`, `UserList.stories.tsx`). -/
structure User where
  id : Int
  name : String
  email : String
  deriving DecidableEq, Repr

/-- A JSON value, the payload type of `HttpResponse.json`. -/
inductive Json where
  | null : Json
  | bool (b : Bool) : Json
  | num (n : Int) : Json
  | str (s : String) : Json
  | arr (elems : List Json) : Json
  | obj (fields : List (String × Json)) : Json

/-- JSON encoding of one user object, field order as in the source
literals: `{ id, name, email }`. -/
def userJson (u : User) : Json :=
  Json.obj [("id", Json.num u.id), ("name", Json.str u.name), ("email", Json.str u.email)]

/-- JSON encoding of a user list, element order preserved. -/
def usersJson (us : List User) : Json :=
  Json.arr (us.map userJson)

/-- An outgoing HTTP request as seen by the interception layer: method and
URL path (the only parts the repository's handlers match on). -/
structure Request where
  method : String
  url : String
  deriving DecidableEq, Repr

/-- Artificial delay attached to a mocked response: none, a fixed number of
milliseconds (`setTimeout` / `delay(ms)`), or `delay('infinite')`. -/
inductive Delay where
  | immediate : Delay
  | finite (ms : Nat) : Delay
  | infinite : Delay
  deriving DecidableEq, Repr

/-- Whether a response with the given delay has resolved once `t`
milliseconds have elapsed since the request was issued. -/
def resolvedWithin : Delay → Nat → Bool
  | Delay.immediate, _ => true
  | Delay.finite ms, t => ms ≤ t
  | Delay.infinite, _ => false

/-- A response descriptor: status code, optional JSON body, delay before
resolving. `new HttpResponse(null, { status })` is `body := none`. -/
structure ResponseDesc where
  status : Nat
  body : Option Json
  delay : Delay

/-- Outcome of invoking a handler: an HTTP response descriptor, or the
transport-level failure produced by `HttpResponse.error()`. -/
inductive MockResult where
  | response (r : ResponseDesc) : MockResult
  | transportFailure : MockResult

/-- Delay before the handler's outcome reaches the caller; a transport
failure is delivered immediately. -/
def MockResult.delay : MockResult → Delay
  | MockResult.response r => r.delay
  | MockResult.transportFailure => Delay.immediate

/-- A mock handler: the route pattern it answers (`http.get(path, ...)`)
and its resolver. The resolver receives the 1-based number of the current
invocation of this handler instance, which models the closure-captured
mutable counters used by the conditional handlers (`requestCount` in
`UserList.test.tsx`); stateless resolvers ignore it. -/
structure Handler where
  method : String
  path : String
  respond : Nat → MockResult

/-- A registered handler instance: the handler plus the number of times
this particular instance has been invoked so far. The counter belongs to
the instance (the closure), not to the registry. -/
structure HandlerInstance where
  handler : Handler
  count : Nat

/-- A fresh instance of a handler, as produced by constructing the handler
value anew inside a test (counter starts at zero). -/
def Handler.fresh (h : Handler) : HandlerInstance :=
  { handler := h, count := 0 }

/-- Invoke a handler instance: bump its counter, then run the resolver at
the new invocation number (the source increments `requestCount` before
inspecting it). Returns the outcome and the updated instance. -/
def HandlerInstance.invoke (hi : HandlerInstance) : MockResult × HandlerInstance :=
  let c := hi.count + 1
  (hi.handler.respond c, { handler := hi.handler, count := c })

/-- Does this handler's route pattern match the request's method and URL? -/
def matchesReq (h : Handler) (req : Request) : Bool :=
  h.method == req.method && h.path == req.url

/-- The state of the mock server: the default handler set passed to
`setupServer(...handlers)` and the overrides pushed by `server.use`, newest
first (MSW prepends runtime handlers so they take precedence). -/
structure ServerState where
  defaults : List HandlerInstance
  overrides : List HandlerInstance

/-- `setupServer(...hs)`: all defaults are fresh instances, no overrides. -/
def setupServer (hs : List Handler) : ServerState :=
  { defaults := hs.map Handler.fresh, overrides := [] }

/-- `server.use(hi)`: prepend a runtime handler instance. The instance is
whatever value the test passes — a freshly constructed handler or a shared
constant whose counter may already be nonzero. -/
def serverUse (s : ServerState) (hi : HandlerInstance) : ServerState :=
  { s with overrides := hi :: s.overrides }

/-- `server.resetHandlers()`: drop all runtime overrides, keeping the
default instances exactly as they are (their closure counters included). -/
def resetHandlers (s : ServerState) : ServerState :=
  { defaults := s.defaults, overrides := [] }

/-- The active handler list consulted for matching: overrides first
(newest first), then the defaults in registration order. -/
def activeList (s : ServerState) : List HandlerInstance :=
  s.overrides ++ s.defaults

/-- The active handler set as a set of handlers (instance counters
erased). -/
def activeHandlers (s : ServerState) : List Handler :=
  (activeList s).map HandlerInstance.handler

/-- First-match-wins lookup over a handler list. -/
def findFirst (l : List HandlerInstance) (req : Request) : Option HandlerInstance :=
  l.find? (fun hi => matchesReq hi.handler req)

/-- Invoke the first matching instance in a list, updating it in place;
`none` when nothing matches. -/
def invokeFirst : List HandlerInstance → Request → Option MockResult × List HandlerInstance
  | [], _ => (none, [])
  | hi :: rest, req =>
    if matchesReq hi.handler req then
      let (r, hi2) := hi.invoke
      (some r, hi2 :: rest)
    else
      let (r, rest2) := invokeFirst rest req
      (r, hi :: rest2)

/-- Dispatch one request against the server: overrides are consulted
before defaults; the matched instance's counter is bumped in place. -/
def handleRequest (s : ServerState) (req : Request) : Option MockResult × ServerState :=
  match invokeFirst s.overrides req with
  | (some r, ov) => (some r, { defaults := s.defaults, overrides := ov })
  | (none, _) =>
    match invokeFirst s.defaults req with
    | (some r, df) => (some r, { defaults := df, overrides := s.overrides })
    | (none, _) => (none, s)

/-- Strategy for requests no handler matches, the `onUnhandledRequest`
option of `server.listen` / `worker.start`. -/
inductive UnhandledRequestStrategy where
  | error : UnhandledRequestStrategy
  | bypass : UnhandledRequestStrategy
  | warn : UnhandledRequestStrategy
  deriving DecidableEq, Repr

/-- Server options from `src/mocks/server.ts`: unmatched requests are
treated as errors in the test environment
(`onUnhandledRequest: 'error' as const`). -/
def serverOptions : UnhandledRequestStrategy :=
  UnhandledRequestStrategy.error

/-- What the interception layer does with one request: invoke a matched
handler, flag an unmatched request as an error (failing the test), or pass
it through to the real network. -/
inductive InterceptOutcome where
  | handled (m : MockResult) : InterceptOutcome
  | flaggedError : InterceptOutcome
  | passthrough : InterceptOutcome

/-- The interception layer: a matched request is answered by the first
matching handler; an unmatched one is dispatched per the configured
`onUnhandledRequest` strategy (`error` fails loudly, `bypass` and `warn`
let the request reach the real network). -/
def intercept (strategy : UnhandledRequestStrategy) (s : ServerState) (req : Request) :
    InterceptOutcome × ServerState :=
  match handleRequest s req with
  | (some m, s2) => (InterceptOutcome.handled m, s2)
  | (none, s2) =>
    match strategy with
    | UnhandledRequestStrategy.error => (InterceptOutcome.flaggedError, s2)
    | UnhandledRequestStrategy.bypass => (InterceptOutcome.passthrough, s2)
    | UnhandledRequestStrategy.warn => (InterceptOutcome.passthrough, s2)

/-! ### Test lifecycle (`setupTestServer` in `src/mocks/server.ts`)

`beforeAll(() => server.listen(serverOptions))`,
`afterEach(() => server.resetHandlers())`,
`afterAll(() => server.close())`: a suite is a sequence of tests; each test
performs a sequence of operations (`server.use` calls and requests), and
`resetHandlers` runs after every test. -/

/-- One operation a test body performs against the mock server. -/
inductive TestOp where
  | useHandler (hi : HandlerInstance) : TestOp
  | request (req : Request) : TestOp

/-- Apply one test operation to the server state. -/
def applyOp (s : ServerState) : TestOp → ServerState
  | TestOp.useHandler hi => serverUse s hi
  | TestOp.request req => (handleRequest s req).2

/-- Run a test body (a list of operations). -/
def runTest (s : ServerState) (ops : List TestOp) : ServerState :=
  ops.foldl applyOp s

/-- Run a sequence of completed tests, each followed by the `afterEach`
teardown `server.resetHandlers()`. -/
def runSuite (s : ServerState) (tests : List (List TestOp)) : ServerState :=
  tests.foldl (fun s2 t => resetHandlers (runTest s2 t)) s

/-! ### Concrete mock data and handlers

`mockUsers` and `mswMockUsers` are the two fixed user lists of
`UserList.test.tsx`; handlers marked "Modelled from the spec" stand in for
the project's `src/mocks/handlers.ts`, which is referenced throughout the
repository (imported by `server.ts`, `browser.ts`, the stories and the
handler-pattern test file) but absent from the sources. -/

/-- The two-entry default user list (`UserList.test.tsx`,
`UserList.stories.tsx` docs: 山田太郎, 鈴木花子). -/
def mockUsers : List User :=
  [{ id := 1, name := "山田太郎", email := "yamada@example.com" },
   { id := 2, name := "鈴木花子", email := "suzuki@example.com" }]

/-- The three-entry alternative user list (`UserList.test.tsx`:
佐藤次郎, 田中美咲, 高橋健一). -/
def mswMockUsers : List User :=
  [{ id := 3, name := "佐藤次郎", email := "sato@example.com" },
   { id := 4, name := "田中美咲", email := "tanaka@example.com" },
   { id := 5, name := "高橋健一", email := "takahashi@example.com" }]

/-- A handler answering `GET path` immediately with status 200 and the
given JSON body — the shape `http.get(path, () => HttpResponse.json(data))`
used throughout the test and story files. -/
def mkGetJsonHandler (path : String) (body : Json) : Handler :=
  { method := "GET", path := path,
    respond := fun _ => MockResult.response { status := 200, body := some body, delay := Delay.immediate } }

/-- Modelled from the spec: the default handler set `handlers` of the
missing `src/mocks/handlers.ts` — the basic success handler answering
`GET /api/users` with 200 and the fixed two-entry `mockUsers` list, as
described by `src/mocks/README.md` and the `Default` story of
`UserList.stories.tsx`. -/
def defaultHandlers : List Handler :=
  [mkGetJsonHandler "/api/users" (usersJson mockUsers)]

/-- The 500 server-error handler, as written inline in
`UserList.test.tsx` (`new HttpResponse(null, { status: 500 })`); the
missing `handlers.ts` exports the same shape as
`errorHandlers.serverError`. -/
def serverError : Handler :=
  { method := "GET", path := "/api/users",
    respond := fun _ => MockResult.response { status := 500, body := none, delay := Delay.immediate } }

/-- The transport-failure handler, as written inline in
`UserList.test.tsx` (`HttpResponse.error()`); `errorHandlers.networkError`
in the missing `handlers.ts`. -/
def networkErrorHandler : Handler :=
  { method := "GET", path := "/api/users",
    respond := fun _ => MockResult.transportFailure }

/-- The conditional/stateful handler written inline in
`UserList.test.tsx` (test 8, `MSWで条件に応じて異なるレスポンスを返す`): a
closure-captured `requestCount` is incremented on every call; the first
call (`requestCount === 1`) returns `new HttpResponse(null, { status: 503 })`
and every later call returns `HttpResponse.json(mswMockUsers)`. -/
def conditionalResponse : Handler :=
  { method := "GET", path := "/api/users",
    respond := fun requestCount =>
      if requestCount = 1 then
        MockResult.response { status := 503, body := none, delay := Delay.immediate }
      else
        MockResult.response { status := 200, body := some (usersJson mswMockUsers), delay := Delay.immediate } }

/-- The `Loading` story handler of `UserList.stories.tsx`:
`await delay('infinite')` before `HttpResponse.json(mockUsers)`, so the
response never resolves. -/
def loadingStoryHandler : Handler :=
  { method := "GET", path := "/api/users",
    respond := fun _ => MockResult.response { status := 200, body := some (usersJson mockUsers), delay := Delay.infinite } }

/-- Modelled from the spec: `specialHandlers.customDelayedResponse(ms)` of
the missing `src/mocks/handlers.ts` — a parametric delayed-success handler
for `GET /api/users` that resolves with the `mswMockUsers` payload after
`ms` milliseconds (the handler-pattern test expects 佐藤次郎 after using
`customDelayedResponse(500)`). -/
def customDelayedResponse (ms : Nat) : Handler :=
  { method := "GET", path := "/api/users",
    respond := fun _ => MockResult.response { status := 200, body := some (usersJson mswMockUsers), delay := Delay.finite ms } }

/-- Modelled from the spec: `createCustomResponseHandler(data)` of the
missing `src/mocks/handlers.ts` — returns the given payload for
`GET /api/users` (`HttpResponse.json(customData)` per the handler-pattern
test and `src/mocks/README.md`). -/
def createCustomResponseHandler (data : Json) : Handler :=
  mkGetJsonHandler "/api/users" data

/-! ### The calling UI (`UserList.tsx`)

Modelled from the spec: the `UserList` component itself is absent from the
sources; its behaviour is pinned down by its tests — it shows a loading
state until the fetch resolves, renders the user names and emails on a
2xx JSON response, and shows `エラー: Failed to fetch users` when
`res.ok` is false (`エラー: <message>` for a thrown fetch error). -/

/-- The observable state of the `UserList` UI. -/
inductive UiState where
  | loading : UiState
  | failure (msg : String) : UiState
  | userList (users : List User) : UiState

/-- Parse one JSON user object back into a record. -/
def parseUser : Json → Option User
  | Json.obj [("id", Json.num i), ("name", Json.str n), ("email", Json.str e)] =>
    some { id := i, name := n, email := e }
  | _ => none

/-- Parse a JSON array of user objects. -/
def parseUsers : Json → Option (List User)
  | Json.arr elems => elems.mapM parseUser
  | _ => none

/-- Modelled from the spec: how `UserList` renders a resolved fetch
outcome — a transport failure surfaces as `エラー: <message>`; a non-2xx
status throws `Failed to fetch users`; a 2xx JSON user list is rendered. -/
def renderResult : MockResult → UiState
  | MockResult.transportFailure => UiState.failure "エラー: Failed to fetch"
  | MockResult.response r =>
    if 200 ≤ r.status ∧ r.status < 300 then
      match r.body with
      | some j =>
        match parseUsers j with
        | some us => UiState.userList us
        | none => UiState.failure "エラー: Failed to fetch users"
      | none => UiState.failure "エラー: Failed to fetch users"
    else
      UiState.failure "エラー: Failed to fetch users"

/-- What the UI shows `t` milliseconds after issuing the request whose
mocked outcome is `m`: still loading until the delay has elapsed, then the
rendered outcome. -/
def observedAt (m : MockResult) (t : Nat) : UiState :=
  if resolvedWithin m.delay t then renderResult m else UiState.loading

/-- The names the UI renders in a given state (empty unless a user list is
shown). -/
def renderedNames : UiState → List String
  | UiState.userList us => us.map User.name
  | _ => []

/-- The JSON body the calling code's `res.json()` observes from a
successful (2xx) response; `none` for error statuses and transport
failures. -/
def okBody : MockResult → Option Json
  | MockResult.response r => if 200 ≤ r.status ∧ r.status < 300 then r.body else none
  | MockResult.transportFailure => none

/-! ### Browser worker bootstrap (`src/mocks/browser.ts`) -/

/-- Worker start options from `browser.ts`: unmatched requests are
bypassed to the real API in the browser, the service worker script is
`/mockServiceWorker.js`, logging is on. -/
structure WorkerStartOptions where
  onUnhandledRequest : UnhandledRequestStrategy
  serviceWorkerUrl : String
  quiet : Bool
  deriving DecidableEq, Repr

/-- The literal `workerOptions` object of `browser.ts`. -/
def workerOptions : WorkerStartOptions :=
  { onUnhandledRequest := UnhandledRequestStrategy.bypass,
    serviceWorkerUrl := "/mockServiceWorker.js",
    quiet := false }

/-- Outcome of calling `enableMocking`: either nothing happens, or the
mock service worker is started with the given options. -/
inductive MockingOutcome where
  | disabled : MockingOutcome
  | workerStarted (opts : WorkerStartOptions) : MockingOutcome
  deriving DecidableEq, Repr

/-- `enableMocking` from `browser.ts`: returns immediately unless
`process.env.NODE_ENV === 'development'`, otherwise starts the worker with
`workerOptions`. -/
def enableMocking (nodeEnv : String) : MockingOutcome :=
  if nodeEnv ≠ "development" then MockingOutcome.disabled
  else MockingOutcome.workerStarted workerOptions

/-! ### Bridging lemmas -/

/-- `find?` over an appended list tries the left list first. -/
theorem findFirst_append (l1 l2 : List HandlerInstance) (req : Request) :
    findFirst (l1 ++ l2) req = (findFirst l1 req).orElse (fun _ => findFirst l2 req) := by
  unfold findFirst
  induction l1 with
  | nil => simp
  | cons hi l ih =>
    by_cases h : matchesReq hi.handler req = true
    · simp [List.find?, h]
    · simp at h
      simp [List.find?, h, ih]

/-- The outcome of `invokeFirst` is the first matching instance's resolver
run at its next invocation number. -/
theorem invokeFirst_fst (l : List HandlerInstance) (req : Request) :
    (invokeFirst l req).1
      = (findFirst l req).map (fun hi => hi.handler.respond (hi.count + 1)) := by
  induction l with
  | nil => rfl
  | cons hi rest ih =>
    by_cases h : matchesReq hi.handler req = true
    · simp [invokeFirst, findFirst, List.find?, h, HandlerInstance.invoke]
    · simp at h
      rcases e : invokeFirst rest req with ⟨r, rest2⟩
      rw [e] at ih
      simp [invokeFirst, findFirst, List.find?, h, e]
      simpa [findFirst] using ih

/-- `invokeFirst` only bumps a counter: the underlying handler list is
unchanged. -/
theorem invokeFirst_handlers (l : List HandlerInstance) (req : Request) :
    (invokeFirst l req).2.map HandlerInstance.handler = l.map HandlerInstance.handler := by
  induction l with
  | nil => rfl
  | cons hi rest ih =>
    by_cases h : matchesReq hi.handler req = true
    · simp [invokeFirst, h, HandlerInstance.invoke]
    · simp at h
      rcases e : invokeFirst rest req with ⟨r, rest2⟩
      rw [e] at ih
      simpa [invokeFirst, h, e] using ih

/-- Dispatching a request answers it with the first matching instance of
the active list (overrides before defaults). -/
theorem handleRequest_fst (s : ServerState) (req : Request) :
    (handleRequest s req).1
      = (findFirst (activeList s) req).map (fun hi => hi.handler.respond (hi.count + 1)) := by
  have h1 := invokeFirst_fst s.overrides req
  have h2 := invokeFirst_fst s.defaults req
  rw [activeList, findFirst_append]
  rcases e1 : invokeFirst s.overrides req with ⟨r1, l1⟩
  rcases e2 : invokeFirst s.defaults req with ⟨r2, l2⟩
  rw [e1] at h1
  rw [e2] at h2
  simp only at h1 h2
  cases hov : findFirst s.overrides req with
  | none =>
    rw [hov] at h1
    simp at h1
    subst h1
    cases hdf : findFirst s.defaults req with
    | none =>
      rw [hdf] at h2
      simp at h2
      subst h2
      simp [handleRequest, e1, e2, Option.orElse]
    | some hi =>
      rw [hdf] at h2
      simp at h2
      subst h2
      simp [handleRequest, e1, e2, Option.orElse]
  | some hi =>
    rw [hov] at h1
    simp at h1
    subst h1
    simp [handleRequest, e1, Option.orElse]

/-- Dispatching a request never changes which handlers make up the default
set. -/
theorem handleRequest_defaults_handlers (s : ServerState) (req : Request) :
    (handleRequest s req).2.defaults.map HandlerInstance.handler
      = s.defaults.map HandlerInstance.handler := by
  have h2 := invokeFirst_handlers s.defaults req
  rcases e1 : invokeFirst s.overrides req with ⟨r1, l1⟩
  rcases e2 : invokeFirst s.defaults req with ⟨r2, l2⟩
  rw [e2] at h2
  simp only at h2
  cases r1 with
  | some m => simp [handleRequest, e1, e2]
  | none =>
    cases r2 with
    | some m => simpa [handleRequest, e1, e2] using h2
    | none => simp [handleRequest, e1, e2]

/-- Running a whole test body never changes which handlers make up the
default set. -/
theorem runTest_defaults_handlers (s : ServerState) (ops : List TestOp) :
    (runTest s ops).defaults.map HandlerInstance.handler
      = s.defaults.map HandlerInstance.handler := by
  induction ops generalizing s with
  | nil => rfl
  | cons op rest ih =>
    cases op with
    | useHandler hi => simpa [runTest, applyOp, serverUse] using ih _
    | request req =>
      have hstep := handleRequest_defaults_handlers s req
      have hrest := ih ((handleRequest s req).2)
      simp only [runTest] at hrest
      simp only [runTest, List.foldl_cons, applyOp]
      rw [hrest, hstep]

/-- Parsing inverts encoding for one user object. -/
theorem parseUser_userJson (u : User) : parseUser (userJson u) = some u := rfl

/-- Parsing inverts encoding elementwise. -/
theorem mapM_parseUser (us : List User) : (us.map userJson).mapM parseUser = some us := by
  induction us with
  | nil => rfl
  | cons u rest ih =>
    rw [List.map_cons, List.mapM_cons, ih]
    rfl

/-- Parsing inverts encoding for a user list, order preserved. -/
theorem parseUsers_usersJson (us : List User) : parseUsers (usersJson us) = some us := by
  unfold parseUsers usersJson
  exact mapM_parseUser us

/-! ### Claims -/

/-- C1: with the test-environment server options of `src/mocks/server.ts`
(`onUnhandledRequest: 'error'`), every request that matches no handler in
the active handler set is flagged as an error — failing the test — and is
never passed through to a real network endpoint. -/
theorem c1_unmatched_request_flags_error (s : ServerState) (req : Request)
    (h : findFirst (activeList s) req = none) :
    (intercept serverOptions s req).1 = InterceptOutcome.flaggedError ∧
      (intercept serverOptions s req).1 ≠ InterceptOutcome.passthrough := by
  have hf := handleRequest_fst s req
  rw [h] at hf
  simp only [Option.map_none'] at hf
  rcases e : handleRequest s req with ⟨r, s2⟩
  rw [e] at hf
  simp only at hf
  subst hf
  refine ⟨?_, ?_⟩
  · simp [intercept, e, serverOptions]
  · simp [intercept, e, serverOptions]

/-- C1 witness: a `POST /api/unknown` request against the default server
matches nothing and is flagged, not passed through. -/
theorem c1_witness :
    findFirst (activeList (setupServer defaultHandlers)) { method := "POST", url := "/api/unknown" } = none ∧
      (intercept serverOptions (setupServer defaultHandlers) { method := "POST", url := "/api/unknown" }).1
        = InterceptOutcome.flaggedError := by
  have h : findFirst (activeList (setupServer defaultHandlers)) { method := "POST", url := "/api/unknown" } = none := rfl
  exact ⟨h, (c1_unmatched_request_flags_error _ _ h).1⟩

/-- After any suite prefix (each test followed by `resetHandlers`), no
overrides remain. -/
theorem runSuite_overrides_nil (tests : List (List TestOp)) (s : ServerState)
    (h : s.overrides = []) : (runSuite s tests).overrides = [] := by
  induction tests generalizing s with
  | nil => exact h
  | cons t ts ih => exact ih _ rfl

/-- A suite never changes which handlers make up the default set. -/
theorem runSuite_defaults_handlers (tests : List (List TestOp)) (s : ServerState) :
    (runSuite s tests).defaults.map HandlerInstance.handler
      = s.defaults.map HandlerInstance.handler := by
  induction tests generalizing s with
  | nil => rfl
  | cons t ts ih =>
    calc (runSuite (resetHandlers (runTest s t)) ts).defaults.map HandlerInstance.handler
        = (resetHandlers (runTest s t)).defaults.map HandlerInstance.handler := ih _
      _ = (runTest s t).defaults.map HandlerInstance.handler := rfl
      _ = s.defaults.map HandlerInstance.handler := runTest_defaults_handlers s t

/-- C2: at the start of every test — after any number of completed tests,
each followed by the `afterEach` teardown `server.resetHandlers()` of
`setupTestServer` — the active handler set equals the global default set
passed to `setupServer`: overrides from earlier tests never leak. -/
theorem c2_test_start_equals_defaults (hs : List Handler) (tests : List (List TestOp)) :
    activeHandlers (runSuite (setupServer hs) tests) = hs := by
  have h1 := runSuite_defaults_handlers tests (setupServer hs)
  have h2 := runSuite_overrides_nil tests (setupServer hs) rfl
  simp only [activeHandlers, activeList, List.map_append, h2, List.map_nil, List.nil_append, h1]
  simp only [setupServer, List.map_map]
  rw [show HandlerInstance.handler ∘ Handler.fresh = id from rfl, List.map_id]

/-- C3: `Match` is a deterministic first-match-wins lookup in registration
order — the handler at position `i` answers whenever no earlier entry
matches; a request matching some registered pattern is answered by exactly
the one handler `findFirst` selects; and a handler installed by
`server.use` takes precedence over the whole previously active set. -/
theorem c3_first_match_wins :
    (∀ (l : List HandlerInstance) (req : Request) (i : Nat) (hlt : i < l.length),
        (∀ j (hj : j < i), matchesReq (l.get ⟨j, hj.trans hlt⟩).handler req = false) →
        matchesReq (l.get ⟨i, hlt⟩).handler req = true →
        findFirst l req = some (l.get ⟨i, hlt⟩)) ∧
    (∀ (l : List HandlerInstance) (req : Request),
        (∃ hi ∈ l, matchesReq hi.handler req = true) →
        ∃ hi, findFirst l req = some hi ∧ matchesReq hi.handler req = true) ∧
    (∀ (s : ServerState) (hi : HandlerInstance) (req : Request),
        matchesReq hi.handler req = true →
        findFirst (activeList (serverUse s hi)) req = some hi) := by
  refine ⟨?one, ?two, ?three⟩
  case one =>
    intro l
    induction l with
    | nil => intro req i hlt; cases (Nat.not_lt_zero i) hlt
    | cons hd tl ih =>
      intro req i hlt hearlier hmatch
      cases i with
      | zero =>
        simp only [List.get] at hmatch
        simp [findFirst, List.find?, hmatch]
      | succ i' =>
        have hhd : matchesReq hd.handler req = false := hearlier 0 (Nat.succ_pos i')
        simp only [List.get] at hmatch ⊢
        have hrec := ih req i' (Nat.lt_of_succ_lt_succ hlt)
          (fun j hj => hearlier (j + 1) (Nat.succ_lt_succ hj)) hmatch
        simp only [findFirst, List.find?, hhd]
        simpa [findFirst] using hrec
  case two =>
    intro l req h
    induction l with
    | nil => simp at h
    | cons hd tl ih =>
      by_cases hm : matchesReq hd.handler req = true
      · exact ⟨hd, by simp [findFirst, List.find?, hm], hm⟩
      · simp only [Bool.not_eq_true] at hm
        rcases h with ⟨hi, hmem, hmatch⟩
        rcases List.mem_cons.mp hmem with rfl | hmem2
        · rw [hm] at hmatch; cases hmatch
        · obtain ⟨hi2, hfind, hmatch2⟩ := ih ⟨hi, hmem2, hmatch⟩
          refine ⟨hi2, ?_, hmatch2⟩
          simp only [findFirst, List.find?, hm]
          simpa [findFirst] using hfind
  case three =>
    intro s hi req h
    simp [findFirst, activeList, serverUse, List.find?, h]

/-- C3 witness: in a two-handler set whose first entry does not match, the
second is selected; a matching `server.use` override wins immediately. -/
theorem c3_witness :
    findFirst [Handler.fresh (mkGetJsonHandler "/api/other" Json.null),
               Handler.fresh (mkGetJsonHandler "/api/users" Json.null)]
        { method := "GET", url := "/api/users" }
      = some (Handler.fresh (mkGetJsonHandler "/api/users" Json.null)) ∧
    findFirst (activeList (serverUse (setupServer defaultHandlers) (Handler.fresh serverError)))
        { method := "GET", url := "/api/users" }
      = some (Handler.fresh serverError) := by
  refine ⟨?_, ?_⟩
  · exact c3_first_match_wins.1
      [Handler.fresh (mkGetJsonHandler "/api/other" Json.null),
       Handler.fresh (mkGetJsonHandler "/api/users" Json.null)]
      { method := "GET", url := "/api/users" } 1 (by decide)
      (fun j hj => by
        have hj0 : j = 0 := Nat.lt_one_iff.mp hj
        subst hj0
        rfl)
      rfl
  · exact c3_first_match_wins.2.2 (setupServer defaultHandlers) (Handler.fresh serverError)
      { method := "GET", url := "/api/users" } rfl

/-- C4: the conditional handler of `UserList.test.tsx` counts invocations
in its closure: a fresh instance answers its first call with a bodyless
503 and every later call with the `mswMockUsers` success payload; the
counter survives `resetHandlers` on default instances and is carried along
unchanged when an existing instance is registered with `server.use` — it
is reset only by constructing a fresh instance. -/
theorem c4_conditional_counter :
    (Handler.fresh conditionalResponse).invoke
        = (MockResult.response { status := 503, body := none, delay := Delay.immediate },
           { handler := conditionalResponse, count := 1 }) ∧
    (∀ c : Nat, 1 ≤ c →
        (HandlerInstance.invoke { handler := conditionalResponse, count := c }).1
          = MockResult.response { status := 200, body := some (usersJson mswMockUsers), delay := Delay.immediate }) ∧
    (∀ s : ServerState, (resetHandlers s).defaults = s.defaults) ∧
    (∀ (s : ServerState) (hi : HandlerInstance), (serverUse s hi).overrides = hi :: s.overrides) := by
  refine ⟨rfl, ?_, fun _ => rfl, fun _ _ => rfl⟩
  intro c hc
  simp only [HandlerInstance.invoke, conditionalResponse]
  rw [if_neg (by omega)]

/-- C4 witness: the second invocation of a fresh conditional instance
(counter already at 1) yields the success payload. -/
theorem c4_witness :
    (HandlerInstance.invoke { handler := conditionalResponse, count := 1 }).1
      = MockResult.response { status := 200, body := some (usersJson mswMockUsers), delay := Delay.immediate } :=
  c4_conditional_counter.2.1 1 (by decide)

/-- C5: the infinite-delay `Loading` story handler never resolves within
any bounded waiting time, so at every elapsed time the caller still
observes the loading state. -/
theorem c5_infinite_delay_loading (n t : Nat) :
    resolvedWithin (loadingStoryHandler.respond n).delay t = false ∧
      observedAt (loadingStoryHandler.respond n) t = UiState.loading := by
  refine ⟨rfl, ?_⟩
  simp [observedAt, loadingStoryHandler, MockResult.delay, resolvedWithin]

/-- C6: a handler with fixed delay `D` resolves no earlier than `D` has
elapsed — before that the caller observes loading — and the 500 ms
delayed-success override delivers the success user-list payload once
500 ms have passed. -/
theorem c6_fixed_delay :
    (∀ (ms n t : Nat), t < ms →
        observedAt ((customDelayedResponse ms).respond n) t = UiState.loading) ∧
    (∀ (n t : Nat), 500 ≤ t →
        observedAt ((customDelayedResponse 500).respond n) t = UiState.userList mswMockUsers) := by
  refine ⟨?_, ?_⟩
  · intro ms n t h
    simp [observedAt, customDelayedResponse, MockResult.delay, resolvedWithin, Nat.not_le.mpr h]
  · intro n t h
    simp [observedAt, customDelayedResponse, MockResult.delay, resolvedWithin, h,
      renderResult, parseUsers_usersJson]

/-- C6 witness: with the 500 ms override, the caller is still loading at
0 ms and sees the payload at 500 ms. -/
theorem c6_witness :
    observedAt ((customDelayedResponse 500).respond 1) 0 = UiState.loading ∧
      observedAt ((customDelayedResponse 500).respond 1) 500 = UiState.userList mswMockUsers :=
  ⟨c6_fixed_delay.1 500 1 0 (by decide), c6_fixed_delay.2 1 500 (by decide)⟩

/-- C7: with the default handler set, `GET /api/users` is answered with
status 200 and the fixed two-entry user list, and the UI renders exactly
the two names 山田太郎 and 鈴木花子. -/
theorem c7_default_two_users :
    (handleRequest (setupServer defaultHandlers) { method := "GET", url := "/api/users" }).1
      = some (MockResult.response { status := 200, body := some (usersJson mockUsers), delay := Delay.immediate }) ∧
    (∀ t : Nat,
        observedAt (MockResult.response { status := 200, body := some (usersJson mockUsers), delay := Delay.immediate }) t
          = UiState.userList mockUsers) ∧
    renderedNames (UiState.userList mockUsers) = ["山田太郎", "鈴木花子"] := by
  exact ⟨rfl, fun _ => rfl, rfl⟩

/-- C8: with the server-error handler overriding the defaults,
`GET /api/users` is answered with status 500 and no body — the error
outcome reaches the caller unchanged — and the UI shows the generic
failure message. -/
theorem c8_server_error_500 :
    (handleRequest (serverUse (setupServer defaultHandlers) (Handler.fresh serverError))
        { method := "GET", url := "/api/users" }).1
      = some (MockResult.response { status := 500, body := none, delay := Delay.immediate }) ∧
    (∀ t : Nat,
        observedAt (MockResult.response { status := 500, body := none, delay := Delay.immediate }) t
          = UiState.failure "エラー: Failed to fetch users") := by
  exact ⟨rfl, fun _ => rfl⟩

/-- C9: for every JSON payload `P` and path `X`, a handler returning `P`
for `GET X` — installed over any server state with any instance counter —
answers with status 200 and body exactly `P`, and the caller's `res.json()`
observes exactly `P`, unmutated and order-preserved. -/
theorem c9_round_trip (path : String) (P : Json) (s : ServerState) (n : Nat) :
    (handleRequest (serverUse s { handler := mkGetJsonHandler path P, count := n })
        { method := "GET", url := path }).1
      = some (MockResult.response { status := 200, body := some P, delay := Delay.immediate }) ∧
    ((handleRequest (serverUse s { handler := mkGetJsonHandler path P, count := n })
        { method := "GET", url := path }).1.bind okBody) = some P := by
  have hm : matchesReq (mkGetJsonHandler path P) { method := "GET", url := path } = true := by
    simp [matchesReq, mkGetJsonHandler]
  have hfind : findFirst (activeList (serverUse s { handler := mkGetJsonHandler path P, count := n }))
      { method := "GET", url := path } = some { handler := mkGetJsonHandler path P, count := n } := by
    simp [findFirst, activeList, serverUse, List.find?, hm]
  have h1 : (handleRequest (serverUse s { handler := mkGetJsonHandler path P, count := n })
      { method := "GET", url := path }).1
      = some (MockResult.response { status := 200, body := some P, delay := Delay.immediate }) := by
    rw [handleRequest_fst, hfind]
    rfl
  refine ⟨h1, ?_⟩
  rw [h1]
  simp [okBody]

/-- C10: `enableMocking` starts the mock service worker only when
`NODE_ENV` is `development`; for every other value it does nothing, so
interception is never enabled in a production build. -/
theorem c10_enable_mocking_dev_only :
    (∀ env : String, env ≠ "development" → enableMocking env = MockingOutcome.disabled) ∧
      enableMocking "development" = MockingOutcome.workerStarted workerOptions := by
  refine ⟨?_, ?_⟩
  · intro env h
    simp [enableMocking, h]
  · simp [enableMocking]

/-- C10 witness: a production build leaves mocking disabled. -/
theorem c10_witness :
    ("production" : String) ≠ "development" ∧
      enableMocking "production" = MockingOutcome.disabled :=
  ⟨by decide, c10_enable_mocking_dev_only.1 "production" (by decide)⟩

end MswMock
